import Mathlib

/-!
Verification of the session-anchored image-analysis backend
(`backend/main.py`): a shallow embedding of its data model and of the three
endpoint handlers (`analyze_image`, `chat_about_image`, `delete_session`),
together with theorems settling the specified properties.

Modelling conventions:
* Python strings are Lean `String`s; `str.strip`, `str.lower` and
  `str.split` are re-implemented below over `List Char` with Python's
  ASCII semantics (the model-output text the code manipulates is ASCII).
* The in-memory `sessions` dict is an association list `List (String × Session)`
  with Python-dict access semantics; the temp-image directory is a list of
  existing file paths.
* The two external collaborators — the vision-language model (`llm.invoke`)
  and the image normalizer (PIL re-encoding in `image_to_b64`) — are
  boundary inputs: the gateway reply is an oracle argument of each
  operation, and the normalized base64 payload is an argument standing for
  `image_to_b64`'s output on the uploaded file.
* Each operation returns the new server state, the HTTP outcome, and the
  trace of payloads sent to the model gateway during the call.
-/

/-! ## Python string primitives -/

/-- Python ASCII whitespace test (the characters removed by `str.strip()`). -/
def pyWs (c : Char) : Bool :=
  c.toNat = 32 || c.toNat = 9 || c.toNat = 10 || c.toNat = 13 || c.toNat = 11 || c.toNat = 12

/-- Python `str.strip()` on a character list: drop whitespace from both ends. -/
def pyStripL (l : List Char) : List Char :=
  ((l.dropWhile pyWs).reverse.dropWhile pyWs).reverse

/-- Python `str.strip()`. -/
def pyStrip (s : String) : String := ⟨pyStripL s.data⟩

/-- Python `str.lower()` on ASCII (maps `A`-`Z` to `a`-`z`); this is exactly
`Char.toLower`. -/
def pyLower (s : String) : String := ⟨s.data.map Char.toLower⟩

/-- Python `str.split(sep)` for a one-character separator, on character
lists: splitting never yields the empty list (splitting the empty string
gives one empty field, as in Python). -/
def pySplitOn (sep : Char) : List Char → List (List Char)
  | [] => [[]]
  | c :: rest =>
    if c = sep then [] :: pySplitOn sep rest
    else
      match pySplitOn sep rest with
      | [] => [[c]]
      | g :: gs => (c :: g) :: gs

/-- Python `", ".join`. -/
def joinComma : List String → String
  | [] => ""
  | [s] => s
  | s :: rest => s ++ ", " ++ joinComma rest

/-! ## Character-level lemmas -/

theorem char_toNat_ofNat_valid {n : Nat} (h : n.isValidChar) :
    (Char.ofNat n).toNat = n := by
  rw [Char.ofNat, dif_pos h]
  rfl

theorem toNat_toLower_of_upper {c : Char} (h : 65 ≤ c.toNat ∧ c.toNat ≤ 90) :
    (Char.toLower c).toNat = c.toNat + 32 := by
  rw [Char.toLower, if_pos h]
  exact char_toNat_ofNat_valid (Or.inl (by omega))

theorem toLower_of_not_upper {c : Char} (h : ¬(65 ≤ c.toNat ∧ c.toNat ≤ 90)) :
    Char.toLower c = c := by
  rw [Char.toLower, if_neg h]

theorem toLower_toLower (c : Char) :
    Char.toLower (Char.toLower c) = Char.toLower c := by
  by_cases h : 65 ≤ c.toNat ∧ c.toNat ≤ 90
  · have h1 := toNat_toLower_of_upper h
    exact toLower_of_not_upper (by omega)
  · rw [toLower_of_not_upper h, toLower_of_not_upper h]

theorem pyWs_toLower (c : Char) : pyWs (Char.toLower c) = pyWs c := by
  by_cases h : 65 ≤ c.toNat ∧ c.toNat ≤ 90
  · have h1 := toNat_toLower_of_upper h
    simp only [pyWs, h1]
    have : ¬(c.toNat + 32 = 32) := by omega
    have : ¬(c.toNat = 32) := by omega
    simp_all [pyWs]
    omega
  · rw [toLower_of_not_upper h]

/-! ## Strip / lower lemmas -/

theorem dropWhile_pyWs_idem (l : List Char) :
    (l.dropWhile pyWs).dropWhile pyWs = l.dropWhile pyWs := by
  induction l with
  | nil => rfl
  | cons c rest ih =>
    by_cases h : pyWs c
    · simp [List.dropWhile_cons, h, ih]
    · simp [List.dropWhile_cons, h]

theorem dropWhile_eq_self_of_head {p : Char → Bool} {l : List Char}
    (h : ∀ a, l.head? = some a → p a = false) :
    l.dropWhile p = l := by
  cases l with
  | nil => rfl
  | cons c rest =>
    have := h c rfl
    simp [List.dropWhile_cons, this]

theorem head_dropWhile_false {p : Char → Bool} {l : List Char} {a : Char}
    (h : (l.dropWhile p).head? = some a) : p a = false := by
  have := List.head?_dropWhile_not p l
  rw [h] at this
  exact this

theorem getLast_dropWhile {p : Char → Bool} {l : List Char}
    (h : l.dropWhile p ≠ []) : (l.dropWhile p).getLast? = l.getLast? := by
  induction l with
  | nil => simp at h
  | cons c rest ih =>
    by_cases hc : p c
    · rw [List.dropWhile_cons_of_pos hc] at h ⊢
      rw [ih h]
      cases rest with
      | nil => simp [List.dropWhile] at h
      | cons d ds => simp
    · rw [List.dropWhile_cons_of_neg (by simp [hc])]

theorem pyStripL_idem (l : List Char) : pyStripL (pyStripL l) = pyStripL l := by
  unfold pyStripL
  set A := l.dropWhile pyWs with hA
  set D := A.reverse.dropWhile pyWs with hD
  have step1 : D.reverse.dropWhile pyWs = D.reverse := by
    apply dropWhile_eq_self_of_head
    intro a ha
    rw [List.head?_reverse] at ha
    have hDne : D ≠ [] := by
      intro h; rw [h] at ha; simp at ha
    rw [hD, getLast_dropWhile (hD ▸ hDne), List.getLast?_reverse] at ha
    exact head_dropWhile_false (hA ▸ ha)
  rw [step1, List.reverse_reverse, hD, dropWhile_pyWs_idem]

theorem pyStripL_map_toLower (l : List Char) :
    pyStripL (l.map Char.toLower) = (pyStripL l).map Char.toLower := by
  have hp : (pyWs ∘ Char.toLower) = pyWs := by
    funext c; exact pyWs_toLower c
  unfold pyStripL
  rw [List.dropWhile_map, hp, ← List.map_reverse, List.dropWhile_map, hp,
    ← List.map_reverse]

theorem map_toLower_idem (l : List Char) :
    (l.map Char.toLower).map Char.toLower = l.map Char.toLower := by
  rw [List.map_map]
  exact List.map_congr_left fun c _ => toLower_toLower c

/-! ## Keyword parsing (`propose_keywords_from_image`, lines 123-138) -/

/-- First-seen-order deduplication: the loop
`for p in parts: if p not in seen: seen.add(p); out.append(p)`. -/
def dedupFirst (seen : List (List Char)) : List (List Char) → List (List Char)
  | [] => []
  | p :: ps =>
    if p ∈ seen then dedupFirst seen ps
    else p :: dedupFirst (p :: seen) ps

/-- Keyword extraction from the raw proposal-model reply, translated from
`propose_keywords_from_image`: `raw = resp.content.strip()`, then
`parts = [p.strip().lower() for p in raw.split(",") if p.strip()]`, then the
first-seen dedup loop, then `out[:5] if out else []` (taking at most five of
an empty list is again the empty list). -/
def parseKeywordsL (content : List Char) : List (List Char) :=
  let raw := pyStripL content
  let parts := ((pySplitOn ',' raw).filter fun p => !(pyStripL p).isEmpty).map
    fun p => (pyStripL p).map Char.toLower
  (dedupFirst [] parts).take 5

/-- String-level keyword extraction. -/
def parseKeywords (content : String) : List String :=
  (parseKeywordsL content.data).map fun l => ⟨l⟩

theorem dedupFirst_sub {xs : List (List Char)} :
    ∀ seen p, p ∈ dedupFirst seen xs → p ∈ xs := by
  induction xs with
  | nil => intro seen p h; simp [dedupFirst] at h
  | cons q qs ih =>
    intro seen p h
    rw [dedupFirst] at h
    by_cases hq : q ∈ seen
    · rw [if_pos hq] at h
      exact List.mem_cons_of_mem q (ih _ _ h)
    · rw [if_neg hq] at h
      rcases List.mem_cons.mp h with h | h
      · simp [h]
      · exact List.mem_cons_of_mem q (ih _ _ h)

theorem dedupFirst_not_mem_seen {xs : List (List Char)} :
    ∀ seen p, p ∈ dedupFirst seen xs → p ∉ seen := by
  induction xs with
  | nil => intro seen p h; simp [dedupFirst] at h
  | cons q qs ih =>
    intro seen p h
    rw [dedupFirst] at h
    by_cases hq : q ∈ seen
    · rw [if_pos hq] at h
      exact ih _ _ h
    · rw [if_neg hq] at h
      rcases List.mem_cons.mp h with h | h
      · exact h ▸ hq
      · intro hs
        exact ih _ _ h (List.mem_cons_of_mem q hs)

theorem dedupFirst_nodup (xs : List (List Char)) :
    ∀ seen, (dedupFirst seen xs).Nodup := by
  induction xs with
  | nil => intro seen; simp [dedupFirst]
  | cons q qs ih =>
    intro seen
    rw [dedupFirst]
    by_cases hq : q ∈ seen
    · rw [if_pos hq]; exact ih seen
    · rw [if_neg hq]
      refine List.nodup_cons.mpr ⟨?_, ih (q :: seen)⟩
      intro hmem
      exact dedupFirst_not_mem_seen _ _ hmem (List.mem_cons_self q seen)

theorem parseKeywordsL_length (content : List Char) :
    (parseKeywordsL content).length ≤ 5 := by
  unfold parseKeywordsL
  simp [List.length_take]

theorem parseKeywordsL_nodup (content : List Char) :
    (parseKeywordsL content).Nodup := by
  unfold parseKeywordsL
  exact (List.take_sublist 5 _).nodup (dedupFirst_nodup _ [])

theorem parseKeywordsL_lower_trimmed (content : List Char) :
    ∀ k ∈ parseKeywordsL content,
      k.map Char.toLower = k ∧ pyStripL k = k := by
  intro k hk
  unfold parseKeywordsL at hk
  have hk2 := dedupFirst_sub _ _ (List.take_subset 5 _ hk)
  rw [List.mem_map] at hk2
  obtain ⟨p, _, hp⟩ := hk2
  subst hp
  constructor
  · exact map_toLower_idem _
  · rw [pyStripL_map_toLower, pyStripL_idem]

/-! ## Data model (`SessionData`, the `sessions` dict, the temp folder) -/

/-- One `chat_history` element: the Python dict
`\x7b"role": ..., "content": ...\x7d`. -/
structure Entry where
  role : String
  content : String
deriving DecidableEq, Repr

/-- The `SessionData` pydantic model (the `session_id` field duplicates the
dict key and is dropped here; no claim mentions it). -/
structure Session where
  image_path : String
  image_b64 : String
  keywords : List String
  description : String
  chat_history : List Entry
deriving DecidableEq, Repr

/-- Whole-server mutable state: the in-memory `sessions` dict plus the set
of files currently existing in the temp-image folder. -/
structure ServerState where
  sessions : List (String × Session)
  files : List String
deriving DecidableEq, Repr

/-- Python dict lookup `sessions.get(k)` / `k in sessions` on the
association-list representation. -/
def dictGet (l : List (String × Session)) (k : String) : Option Session :=
  match l with
  | [] => none
  | (k', v) :: rest => if k' = k then some v else dictGet rest k

/-- Python dict assignment `sessions[k] = v`: replace the binding in place,
or append a new one. -/
def dictInsert (l : List (String × Session)) (k : String) (v : Session) :
    List (String × Session) :=
  match l with
  | [] => [(k, v)]
  | (k', v') :: rest =>
    if k' = k then (k, v) :: rest else (k', v') :: dictInsert rest k v

/-- Python `del sessions[k]`: the key is gone afterwards. -/
def dictErase (l : List (String × Session)) (k : String) :
    List (String × Session) :=
  match l with
  | [] => []
  | (k', v') :: rest =>
    if k' = k then dictErase rest k else (k', v') :: dictErase rest k

/-- File-system `os.remove`: the path is gone afterwards. -/
def removeFile (l : List String) (path : String) : List String :=
  match l with
  | [] => []
  | p :: rest => if p = path then removeFile rest path else p :: removeFile rest path

/-! ## Messages and prompt assembly -/

/-- A message sent to the model gateway. `humanImg` is the single
`HumanMessage` built by `vision_messages_from_b64`: a text part together
with one inline `data:image/png;base64,...` attachment. The `ai` role
(langchain `AIMessage`) never occurs in payloads built by this code; it is
declared so the specified replay behaviour can be stated and compared. -/
inductive Msg where
  | system (content : String)
  | human (content : String)
  | ai (content : String)
  | humanImg (text : String) (image_b64 : String)
deriving DecidableEq, Repr

/-- The `SAFETY_HINTS` catalog. -/
def SAFETY_HINTS : List String :=
  ["no helmet", "no gloves", "no safety vest", "no goggles",
   "improper harness", "exposed rebar", "trip hazard", "damaged cable",
   "blocked fire exit", "working at height without guardrails",
   "unstable ladder", "overloaded scaffold", "no ear protection",
   "improper footwear", "sparks near flammables", "poor housekeeping"]

/-- The `SYSTEM_PROMPT` policy text (description generation). -/
def SYSTEM_PROMPT : String :=
  "You are a construction-safety analyst.\n\nYour task is to analyze the provided image and (optionally) a user-supplied keyword or phrase, then output a short, factual safety observation. Follow these rules:\n\n1. Provide a concise, professional observation (1–2 sentences) based solely on what is clearly visible in the image.\n2. If multiple safety conditions or issues are visible, combine them briefly while keeping the description compact and neutral.\n3. Do not speculate or assume any details that cannot be visually confirmed.\n4. If a keyword is provided:\n   - Address it **only if it aligns with visible evidence**.\n   - If the keyword is **not supported by the image**, clearly but professionally state that the visual evidence does not match the keyword, and provide an accurate observation of what is visible instead.\n5. Use neutral, audit-friendly language (avoid blame or judgmental wording).\n6. Prioritize visual evidence over the keyword when there is a conflict.\n7. Output **plain text only** — no bullet points, no extra fields, no JSON.\n"

/-- The `CHAT_SYSTEM_PROMPT` persona instruction. -/
def CHAT_SYSTEM_PROMPT : String :=
  "You are a construction-safety assistant. You have already analyzed an image and provided a safety observation.\nNow the user has follow-up questions about the same image. Answer their questions based on what you can see in the image.\nBe helpful, concise, and professional. Reference specific visual details when answering."

/-- The result of `PROPOSAL_PROMPT.format(safety_hints=", ".join(SAFETY_HINTS))`. -/
def proposalUserText : String :=
  "From this image, propose up to 5 *likely* construction-safety observations as short keywords (e.g., \"no helmet\", \"damaged cable\").\nOnly include items that seem visually plausible from the image. Return a comma-separated list of short phrases, no explanations.\nHere are example safety phrases for inspiration (do not copy blindly): "
  ++ joinComma SAFETY_HINTS ++ ".\n"

/-- The result of `DESCRIPTION_PROMPT.format(keywords=kw_text)` where
`kw_text = ", ".join(keywords) if keywords else "none"`. -/
def descriptionUserText (keywords : List String) : String :=
  "Use the image and the provided context to write a brief, audit-friendly observation description (1–2 sentences).\nContext keyword(s): "
  ++ (if keywords.isEmpty then "none" else joinComma keywords)
  ++ "\n\nWrite the final description only. Do not include headings or extra commentary.\n"

/-- Payload of the keyword-proposal gateway call in
`propose_keywords_from_image`. -/
def proposalPayload (image_b64 : String) : List Msg :=
  [.system "You propose concise safety keywords.",
   .humanImg proposalUserText image_b64]

/-- Payload of the description-generation gateway call in
`generate_description`. -/
def descriptionPayload (image_b64 : String) (keywords : List String) : List Msg :=
  [.system SYSTEM_PROMPT,
   .humanImg (descriptionUserText keywords) image_b64]

/-- The synthetic recap message text built in `chat_about_image`:
`f"Initial analysis - Keywords: ... . Description: ..."`. -/
def recapText (s : Session) : String :=
  "Initial analysis - Keywords: " ++ joinComma s.keywords
  ++ ". Description: " ++ s.description

/-- Replay of one stored `chat_history` entry in `chat_about_image`:
a `user` entry becomes a `HumanMessage`; anything else (the stored
`assistant` entries) becomes a `SystemMessage`. -/
def replayEntry (e : Entry) : Msg :=
  if e.role = "user" then .human e.content else .system e.content

/-- The full message sequence `chat_about_image` sends to the gateway. -/
def chatMessages (s : Session) (message : String) : List Msg :=
  [.system CHAT_SYSTEM_PROMPT, .human (recapText s)]
  ++ s.chat_history.map replayEntry
  ++ [.humanImg message s.image_b64]

/-! ## Operations -/

/-- HTTP-level failure outcomes: `HTTPException(404)`, `HTTPException(400)`,
and an exception propagating out of `llm.invoke`. -/
inductive ApiError where
  | notFound (detail : String)
  | badRequest (detail : String)
  | generationFailed (detail : String)
deriving DecidableEq, Repr

/-- Success-or-error outcome of a handler. -/
inductive Outcome (α : Type) where
  | ok (val : α)
  | err (e : ApiError)
deriving DecidableEq, Repr

/-- The reply of one `llm.invoke` call, supplied as an oracle: the external
model either returns text content or raises. -/
inductive GwReply where
  | reply (content : String)
  | failure (detail : String)
deriving DecidableEq, Repr

/-- Result of running one handler: the server state after the call, the
HTTP outcome, and the payloads sent to the model gateway, in order. -/
structure OpResult (α : Type) where
  state : ServerState
  outcome : Outcome α
  calls : List (List Msg)
deriving DecidableEq, Repr

/-- Body of the `ChatResponse` model. -/
structure ChatOut where
  response : String
  chat_history : List Entry
deriving DecidableEq, Repr

/-- Body of the `AnalysisResponse` model. -/
structure AnalyzeOut where
  session_id : String
  keywords : List String
  description : String
deriving DecidableEq, Repr

/-- The accepted content types of `analyze_image`. -/
def allowed_image_types : List String := ["image/jpeg", "image/jpg", "image/png"]

/-- Python `filename.split(".")[-1]`. -/
def lastDotComponent (filename : String) : String :=
  ⟨(pySplitOn '.' filename.data).getLastD []⟩

/-- The `POST /api/chat` handler `chat_about_image`, translated line by
line. `gw` is the oracle outcome of the single `llm.invoke` call. -/
def chat_about_image (σ : ServerState) (session_id message : String)
    (gw : GwReply) : OpResult ChatOut :=
  match dictGet σ.sessions session_id with
  | none => ⟨σ, .err (.notFound "Session not found"), []⟩
  | some s =>
    let payload := chatMessages s message
    match gw with
    | .failure d => ⟨σ, .err (.generationFailed d), [payload]⟩
    | .reply content =>
      let response_text := pyStrip content
      let s' := { s with chat_history :=
        s.chat_history ++ [⟨"user", message⟩, ⟨"assistant", response_text⟩] }
      ⟨{ σ with sessions := dictInsert σ.sessions session_id s' },
       .ok ⟨response_text, s'.chat_history⟩, [payload]⟩

/-- Tail of the `analyze_image` handler once the keyword list has been
resolved: the `generate_description` gateway call, session creation, and
the `AnalysisResponse`. `kwCalls` is the gateway trace accumulated by the
keyword-resolution step. -/
def analyzeFinish (σ1 : ServerState) (image_b64 fresh_id image_path : String)
    (kwCalls : List (List Msg)) (keywords : List String)
    (gwDescribe : GwReply) : OpResult AnalyzeOut :=
  match gwDescribe with
  | .failure d =>
    ⟨σ1, .err (.generationFailed d),
     kwCalls ++ [descriptionPayload image_b64 keywords]⟩
  | .reply dtext =>
    let description := pyStrip dtext
    let s : Session := ⟨image_path, image_b64, keywords, description, []⟩
    ⟨{ σ1 with sessions := dictInsert σ1.sessions fresh_id s },
     .ok ⟨fresh_id, keywords, description⟩,
     kwCalls ++ [descriptionPayload image_b64 keywords]⟩

/-- The `POST /api/analyze` handler `analyze_image`, translated line by
line. `image_b64` stands for the output of the external image normalizer
(`image_to_b64`) on the uploaded file; `fresh_id` for `str(uuid.uuid4())`;
`gwPropose` and `gwDescribe` are the oracle outcomes of the (at most two)
`llm.invoke` calls. -/
def analyze_image (σ : ServerState) (content_type filename keyword : String)
    (image_b64 : String) (fresh_id : String)
    (gwPropose gwDescribe : GwReply) : OpResult AnalyzeOut :=
  if content_type ∉ allowed_image_types then
    ⟨σ, .err (.badRequest "Only JPG and PNG images are supported"), []⟩
  else
    let image_path := "temp_images/" ++ fresh_id ++ "." ++ lastDotComponent filename
    let σ1 : ServerState := { σ with files := σ.files ++ [image_path] }
    if keyword ≠ "" ∧ pyStrip keyword ≠ "" then
      analyzeFinish σ1 image_b64 fresh_id image_path [] [pyLower (pyStrip keyword)]
        gwDescribe
    else
      match gwPropose with
      | .failure d =>
        ⟨σ1, .err (.generationFailed d), [proposalPayload image_b64]⟩
      | .reply raw =>
        analyzeFinish σ1 image_b64 fresh_id image_path [proposalPayload image_b64]
          (parseKeywords raw) gwDescribe

/-- The `DELETE /api/session` handler `delete_session`, translated line by
line (including the `os.path.exists` guard before `os.remove`). -/
def delete_session (σ : ServerState) (session_id : String) : OpResult String :=
  match dictGet σ.sessions session_id with
  | some s =>
    let files' := if s.image_path ∈ σ.files then removeFile σ.files s.image_path
      else σ.files
    ⟨⟨dictErase σ.sessions session_id, files'⟩,
     .ok "Session deleted successfully", []⟩
  | none => ⟨σ, .err (.notFound "Session not found"), []⟩

/-! ## Dictionary lemmas -/

theorem dictGet_insert_self (l : List (String × Session)) (k : String) (v : Session) :
    dictGet (dictInsert l k v) k = some v := by
  induction l with
  | nil => simp [dictInsert, dictGet]
  | cons p rest ih =>
    obtain ⟨k', v'⟩ := p
    by_cases h : k' = k
    · simp [dictInsert, dictGet, h]
    · simp [dictInsert, dictGet, h, ih]

theorem dictGet_insert_ne (l : List (String × Session)) {k k' : String} (v : Session)
    (h : k' ≠ k) : dictGet (dictInsert l k v) k' = dictGet l k' := by
  induction l with
  | nil => simp [dictInsert, dictGet, Ne.symm h]
  | cons p rest ih =>
    obtain ⟨k₀, v₀⟩ := p
    by_cases h0 : k₀ = k
    · subst h0
      simp [dictInsert, dictGet, Ne.symm h]
    · simp only [dictInsert, if_neg h0, dictGet]
      by_cases h1 : k₀ = k'
      · simp [h1]
      · simp [h1, ih]

theorem dictGet_erase_self (l : List (String × Session)) (k : String) :
    dictGet (dictErase l k) k = none := by
  induction l with
  | nil => simp [dictErase, dictGet]
  | cons p rest ih =>
    obtain ⟨k', v'⟩ := p
    by_cases h : k' = k
    · simp [dictErase, h, ih]
    · simp [dictErase, dictGet, h, ih]

theorem dictGet_erase_ne (l : List (String × Session)) {k k' : String}
    (h : k' ≠ k) : dictGet (dictErase l k) k' = dictGet l k' := by
  induction l with
  | nil => simp [dictErase]
  | cons p rest ih =>
    obtain ⟨k₀, v₀⟩ := p
    by_cases h0 : k₀ = k
    · subst h0
      simp [dictErase, dictGet, Ne.symm h, ih]
    · simp only [dictErase, if_neg h0, dictGet]
      by_cases h1 : k₀ = k'
      · simp [h1]
      · simp [h1, ih]

/-! ## Concrete fixtures used by witnesses -/

/-- A session fresh out of `analyze_image` (empty chat history). -/
def sampleSession : Session :=
  ⟨"temp_images/sid1.png", "IMGB64", ["no helmet"], "A worker without a helmet.", []⟩

/-- A session that already went through one chat turn. -/
def sampleSession2 : Session :=
  { sampleSession with chat_history := [⟨"user", "hi"⟩, ⟨"assistant", "hello"⟩] }

/-- Server state holding `sampleSession` under id `sid1`, with its backing
file present. -/
def sampleState : ServerState :=
  ⟨[("sid1", sampleSession)], ["temp_images/sid1.png"]⟩

/-- Server state holding `sampleSession2` under id `sid1`. -/
def sampleState2 : ServerState :=
  ⟨[("sid1", sampleSession2)], ["temp_images/sid1.png"]⟩

/-- Server state whose session exists but whose backing temp file is
already gone from disk. -/
def sampleStateNoFile : ServerState :=
  ⟨[("sid1", sampleSession)], []⟩

/-! ## Claim C3 — failed chat is atomic -/

/-- Claim C3: on an existing session, a gateway failure during `chat`
propagates as a generation error and the server state — in particular the
session's `chat_history` — is exactly what it was before the call; the only
side effect is the one payload sent to the gateway. -/
theorem C3_failed_chat_leaves_state_unchanged
    (σ : ServerState) (sid m d : String) (s : Session)
    (h : dictGet σ.sessions sid = some s) :
    chat_about_image σ sid m (.failure d)
      = ⟨σ, .err (.generationFailed d), [chatMessages s m]⟩ := by
  simp [chat_about_image, h]

/-- Witness for C3 at a concrete state. -/
theorem C3_witness :
    chat_about_image sampleState2 "sid1" "why" (.failure "boom")
      = ⟨sampleState2, .err (.generationFailed "boom"),
         [chatMessages sampleSession2 "why"]⟩ :=
  C3_failed_chat_leaves_state_unchanged sampleState2 "sid1" "why" "boom"
    sampleSession2 (by decide)

/-! ## Claim C8 — chat on an unknown session -/

theorem chat_on_absent (σ : ServerState) (sid m : String) (gw : GwReply)
    (h : dictGet σ.sessions sid = none) :
    chat_about_image σ sid m gw
      = ⟨σ, .err (.notFound "Session not found"), []⟩ := by
  simp [chat_about_image, h]

theorem delete_on_absent (σ : ServerState) (sid : String)
    (h : dictGet σ.sessions sid = none) :
    delete_session σ sid
      = ⟨σ, .err (.notFound "Session not found"), []⟩ := by
  simp [delete_session, h]

/-- Claim C8: a `chat` request whose session id is not in the table fails
with NotFound, makes no gateway call, and leaves the server state (session
table included) entirely unchanged — in particular no session is created. -/
theorem C8_chat_unknown_session_not_found
    (σ : ServerState) (sid m : String) (gw : GwReply)
    (h : dictGet σ.sessions sid = none) :
    chat_about_image σ sid m gw
      = ⟨σ, .err (.notFound "Session not found"), []⟩ :=
  chat_on_absent σ sid m gw h

/-- Witness for C8 at a concrete state. -/
theorem C8_witness :
    chat_about_image sampleState "ghost" "hello" (.reply "hi")
      = ⟨sampleState, .err (.notFound "Session not found"), []⟩ :=
  C8_chat_unknown_session_not_found sampleState "ghost" "hello" (.reply "hi")
    (by decide)

/-! ## Claim C10 — delete with the backing file already gone -/

/-- Claim C10: when the session exists but its temp file is already absent,
`delete_session` still succeeds: the `os.path.exists` guard skips the
removal, the record is dropped from the table, the file list is untouched,
and the success confirmation is returned. -/
theorem C10_delete_missing_file_still_succeeds
    (σ : ServerState) (sid : String) (s : Session)
    (h : dictGet σ.sessions sid = some s) (hf : s.image_path ∉ σ.files) :
    delete_session σ sid
      = ⟨⟨dictErase σ.sessions sid, σ.files⟩,
         .ok "Session deleted successfully", []⟩ := by
  simp [delete_session, h, hf]

/-- Witness for C10 at a concrete state. -/
theorem C10_witness :
    delete_session sampleStateNoFile "sid1"
      = ⟨⟨dictErase sampleStateNoFile.sessions "sid1", sampleStateNoFile.files⟩,
         .ok "Session deleted successfully", []⟩ :=
  C10_delete_missing_file_still_succeeds sampleStateNoFile "sid1" sampleSession
    (by decide) (by decide)

/-! ## Claim C9 — content-type validation -/

/-- Claim C9: an upload whose declared content type is not `image/jpeg`,
`image/jpg` or `image/png` is rejected with the 400 error before any file
is written (the file list is unchanged), before any session is created
(the state is unchanged), and before any gateway call is made (the call
trace is empty); an upload with one of the three accepted types is never
rejected with a 400. -/
theorem C9_content_type_validation :
    (∀ σ ct fn kw b64 fid gp gd, ct ∉ allowed_image_types →
      analyze_image σ ct fn kw b64 fid gp gd
        = ⟨σ, .err (.badRequest "Only JPG and PNG images are supported"), []⟩) ∧
    (∀ σ ct fn kw b64 fid gp gd det, ct ∈ allowed_image_types →
      (analyze_image σ ct fn kw b64 fid gp gd).outcome ≠ .err (.badRequest det)) := by
  constructor
  · intro σ ct fn kw b64 fid gp gd h
    simp [analyze_image, h]
  · intro σ ct fn kw b64 fid gp gd det h
    rw [analyze_image, if_neg (by simpa using h)]
    split
    · cases gd <;> simp [analyzeFinish]
    · cases gp with
      | failure d => simp
      | reply raw => cases gd <;> simp [analyzeFinish]

/-- Witness for C9: a GIF upload is rejected with 400 and no side effects;
a PNG upload with the same inputs is not rejected. -/
theorem C9_witness :
    (analyze_image sampleState "image/gif" "a.gif" "" "B" "sid9"
        (.reply "x") (.reply "y")
      = ⟨sampleState, .err (.badRequest "Only JPG and PNG images are supported"), []⟩) ∧
    ((analyze_image sampleState "image/png" "a.png" "" "B" "sid9"
        (.reply "x") (.reply "y")).outcome ≠ .err (.badRequest "Only JPG and PNG images are supported")) :=
  ⟨C9_content_type_validation.1 sampleState "image/gif" "a.gif" "" "B" "sid9"
      (.reply "x") (.reply "y") (by decide),
   C9_content_type_validation.2 sampleState "image/png" "a.png" "" "B" "sid9"
      (.reply "x") (.reply "y") "Only JPG and PNG images are supported" (by decide)⟩

/-! ## Claim C1 — the chat payload -/

/-- Images attached in a payload, in order. -/
def imgAttachments : List Msg → List String
  | [] => []
  | .humanImg _ b :: rest => b :: imgAttachments rest
  | _ :: rest => imgAttachments rest

theorem imgAttachments_append (l1 l2 : List Msg) :
    imgAttachments (l1 ++ l2) = imgAttachments l1 ++ imgAttachments l2 := by
  induction l1 with
  | nil => rfl
  | cons m rest ih => cases m <;> simp [imgAttachments, ih]

theorem imgAttachments_replay (h : List Entry) :
    imgAttachments (h.map replayEntry) = [] := by
  induction h with
  | nil => rfl
  | cons e rest ih =>
    by_cases hr : e.role = "user" <;> simp [replayEntry, hr, imgAttachments, ih]

/-- Modelled from the spec (claim C1 wording): replay of a stored turn with
the stored `assistant` entries carried as assistant-role messages. Declared
only to compare the specified payload with the one the code builds. -/
def replayEntryClaimed (e : Entry) : Msg :=
  if e.role = "user" then .human e.content else .ai e.content

/-- Modelled from the spec (claim C1 wording): the message sequence the
claim says a chat call sends. -/
def chatMessagesClaimed (s : Session) (message : String) : List Msg :=
  [.system CHAT_SYSTEM_PROMPT, .human (recapText s)]
  ++ s.chat_history.map replayEntryClaimed
  ++ [.humanImg message s.image_b64]

set_option maxRecDepth 8192 in
/-- Counterexample to claim C1 as stated: on a session with one prior turn,
the payload actually sent replays the stored assistant entry as a
system-role message, not as an assistant-role message, so it differs from
the claimed sequence. -/
theorem C1_counterexample :
    (chat_about_image sampleState2 "sid1" "next" (.reply "ok")).calls
      ≠ [chatMessagesClaimed sampleSession2 "next"] := by
  decide

/-- Claim C1 as amended: on an existing session, the payload sent to the
model is exactly the persona system instruction, then the synthetic recap
message (keywords and description), then the prior turns in order — each
stored `user` entry as a user-role message and each stored `assistant`
entry as a system-role message — then the new user message carrying the
session's normalized image; and that image is attached exactly once in the
whole payload. -/
theorem C1_chat_payload (σ : ServerState) (sid m : String) (gw : GwReply)
    (s : Session) (h : dictGet σ.sessions sid = some s) :
    (chat_about_image σ sid m gw).calls
      = [[Msg.system CHAT_SYSTEM_PROMPT, Msg.human (recapText s)]
          ++ s.chat_history.map replayEntry ++ [Msg.humanImg m s.image_b64]] ∧
    ∀ payload ∈ (chat_about_image σ sid m gw).calls,
      imgAttachments payload = [s.image_b64] := by
  have hc : (chat_about_image σ sid m gw).calls = [chatMessages s m] := by
    cases gw <;> simp [chat_about_image, h]
  refine ⟨by rw [hc]; rfl, ?_⟩
  intro payload hp
  rw [hc, List.mem_singleton] at hp
  subst hp
  rw [chatMessages, imgAttachments_append, imgAttachments_append,
    imgAttachments_replay]
  rfl

/-- Witness for the amended C1 at a concrete state. -/
theorem C1_witness :
    (chat_about_image sampleState2 "sid1" "next" (.reply "ok")).calls
      = [[Msg.system CHAT_SYSTEM_PROMPT, Msg.human (recapText sampleSession2)]
          ++ sampleSession2.chat_history.map replayEntry
          ++ [Msg.humanImg "next" sampleSession2.image_b64]] ∧
    ∀ payload ∈ (chat_about_image sampleState2 "sid1" "next" (.reply "ok")).calls,
      imgAttachments payload = [sampleSession2.image_b64] :=
  C1_chat_payload sampleState2 "sid1" "next" (.reply "ok") sampleSession2
    (by decide)

/-! ## Claim C5 — user-supplied keyword bypasses the proposal call -/

/-- Claim C5: when the uploaded keyword is non-empty after trimming, the
resolved keyword list is exactly the one-element list holding the trimmed,
lowercased keyword, the only gateway call is the description call (the
keyword-proposal call is never made), and on a successful description call
the response carries that keyword list. -/
theorem C5_user_keyword_bypasses_proposal
    (σ : ServerState) (ct fn kw b64 fid : String) (gp gd : GwReply)
    (hct : ct ∈ allowed_image_types) (hkw : pyStrip kw ≠ "") :
    (analyze_image σ ct fn kw b64 fid gp gd).calls
      = [descriptionPayload b64 [pyLower (pyStrip kw)]] ∧
    (∀ d, gd = .reply d →
      (analyze_image σ ct fn kw b64 fid gp gd).outcome
        = .ok ⟨fid, [pyLower (pyStrip kw)], pyStrip d⟩) := by
  have hne : kw ≠ "" := by
    intro e
    subst e
    exact hkw rfl
  rw [analyze_image, if_neg (by simpa using hct), if_pos ⟨hne, hkw⟩]
  cases gd <;> simp [analyzeFinish]

/-- Witness for C5: uploading with keyword `" No Helmet "` resolves to
`["no helmet"]` with a single description call. -/
theorem C5_witness :
    (analyze_image sampleState "image/jpeg" "a.jpg" " No Helmet " "B" "sid5"
        (.reply "ignored") (.reply " desc ")).calls
      = [descriptionPayload "B" [pyLower (pyStrip " No Helmet ")]] ∧
    (∀ d, (GwReply.reply " desc ") = .reply d →
      (analyze_image sampleState "image/jpeg" "a.jpg" " No Helmet " "B" "sid5"
          (.reply "ignored") (.reply " desc ")).outcome
        = .ok ⟨"sid5", [pyLower (pyStrip " No Helmet ")], pyStrip d⟩) :=
  C5_user_keyword_bypasses_proposal sampleState "image/jpeg" "a.jpg"
    " No Helmet " "B" "sid5" (.reply "ignored") (.reply " desc ")
    (by decide) (by decide)

/-! ## Claim C4 — model-proposed keywords -/

theorem mk_string_injective : Function.Injective (fun l : List Char => (⟨l⟩ : String)) := by
  intro a b h
  injection h

/-- Claim C4: with an empty (or whitespace-only) keyword input and a
successful proposal call, `analyze_image` resolves the keywords by the
comma-split / strip / lowercase / first-seen-dedup / take-5 pipeline
(`parseKeywords`) applied to the proposal reply, making exactly the
proposal call followed by the description call; the resolved list always
has length at most 5 and its entries are lowercase, trimmed, and pairwise
distinct (and when the reply yields no usable item the list is empty, with
no fallback — `parseKeywords` of such a reply is `[]`). -/
theorem C4_auto_keywords (σ : ServerState) (ct fn kw b64 fid raw d : String)
    (hct : ct ∈ allowed_image_types) (hkw : pyStrip kw = "") :
    (analyze_image σ ct fn kw b64 fid (.reply raw) (.reply d)).outcome
      = .ok ⟨fid, parseKeywords raw, pyStrip d⟩ ∧
    (analyze_image σ ct fn kw b64 fid (.reply raw) (.reply d)).calls
      = [proposalPayload b64, descriptionPayload b64 (parseKeywords raw)] ∧
    (parseKeywords raw).length ≤ 5 ∧
    (∀ k ∈ parseKeywords raw, pyLower k = k ∧ pyStrip k = k) ∧
    (parseKeywords raw).Nodup := by
  have hcond : ¬(kw ≠ "" ∧ pyStrip kw ≠ "") := by
    intro ⟨_, h2⟩
    exact h2 hkw
  refine ⟨?_, ?_, ?_, ?_, ?_⟩
  · rw [analyze_image, if_neg (by simpa using hct), if_neg hcond]
    simp [analyzeFinish]
  · rw [analyze_image, if_neg (by simpa using hct), if_neg hcond]
    simp [analyzeFinish]
  · rw [parseKeywords, List.length_map]
    exact parseKeywordsL_length raw.data
  · intro k hk
    rw [parseKeywords, List.mem_map] at hk
    obtain ⟨l, hl, rfl⟩ := hk
    obtain ⟨h1, h2⟩ := parseKeywordsL_lower_trimmed raw.data l hl
    exact ⟨congrArg (fun x => (⟨x⟩ : String)) h1,
           congrArg (fun x => (⟨x⟩ : String)) h2⟩
  · exact (parseKeywordsL_nodup raw.data).map mk_string_injective

/-- Witness for C4: the §8 scenario — proposal reply
`"No Helmet, No Helmet, Trip Hazard"` resolves to
`["no helmet", "trip hazard"]`. -/
theorem C4_witness :
    ((analyze_image sampleState "image/png" "a.png" "  " "B" "sid4"
        (.reply "No Helmet, No Helmet, Trip Hazard") (.reply "desc")).outcome
      = .ok ⟨"sid4", parseKeywords "No Helmet, No Helmet, Trip Hazard", pyStrip "desc"⟩ ∧
    (analyze_image sampleState "image/png" "a.png" "  " "B" "sid4"
        (.reply "No Helmet, No Helmet, Trip Hazard") (.reply "desc")).calls
      = [proposalPayload "B",
         descriptionPayload "B" (parseKeywords "No Helmet, No Helmet, Trip Hazard")] ∧
    (parseKeywords "No Helmet, No Helmet, Trip Hazard").length ≤ 5 ∧
    (∀ k ∈ parseKeywords "No Helmet, No Helmet, Trip Hazard",
      pyLower k = k ∧ pyStrip k = k) ∧
    (parseKeywords "No Helmet, No Helmet, Trip Hazard").Nodup) ∧
    parseKeywords "No Helmet, No Helmet, Trip Hazard" = ["no helmet", "trip hazard"] :=
  ⟨C4_auto_keywords sampleState "image/png" "a.png" "  " "B" "sid4"
      "No Helmet, No Helmet, Trip Hazard" "desc" (by decide) (by decide),
   by decide⟩

/-! ## Claim C2 — chat history grows in strict user/assistant pairs -/

/-- Decidable check that a history is a sequence of `(user, assistant)`
pairs: even length, strictly alternating roles starting with `user`. -/
def isPairs : List Entry → Bool
  | [] => true
  | u :: a :: rest => u.role == "user" && a.role == "assistant" && isPairs rest
  | _ :: [] => false

/-- The history entries appended by a list of successful chat turns
`(message, raw gateway reply)`. -/
def turnsEntries : List (String × String) → List Entry
  | [] => []
  | t :: ts => ⟨"user", t.1⟩ :: ⟨"assistant", pyStrip t.2⟩ :: turnsEntries ts

/-- Iterated successful chat calls on one session. -/
def runChats (σ : ServerState) (sid : String) :
    List (String × String) → ServerState
  | [] => σ
  | t :: ts => runChats (chat_about_image σ sid t.1 (.reply t.2)).state sid ts

theorem turnsEntries_length (ts : List (String × String)) :
    (turnsEntries ts).length = 2 * ts.length := by
  induction ts with
  | nil => rfl
  | cons t ts ih => simp [turnsEntries, ih]; omega

theorem isPairs_turnsEntries (ts : List (String × String)) :
    isPairs (turnsEntries ts) = true := by
  induction ts with
  | nil => rfl
  | cons t ts ih => simp [turnsEntries, isPairs, ih]

theorem chat_success_sessions (σ : ServerState) (sid m r : String) (s : Session)
    (h : dictGet σ.sessions sid = some s) :
    (chat_about_image σ sid m (.reply r)).state.sessions
      = dictInsert σ.sessions sid
          { s with chat_history :=
              s.chat_history ++ [⟨"user", m⟩, ⟨"assistant", pyStrip r⟩] } := by
  simp [chat_about_image, h]

theorem runChats_history (sid : String) :
    ∀ (ts : List (String × String)) (σ : ServerState) (s : Session),
      dictGet σ.sessions sid = some s →
      dictGet (runChats σ sid ts).sessions sid
        = some { s with chat_history := s.chat_history ++ turnsEntries ts } := by
  intro ts
  induction ts with
  | nil =>
    intro σ s h
    simpa [runChats, turnsEntries] using h
  | cons t ts ih =>
    intro σ s h
    rw [runChats]
    have step := chat_success_sessions σ sid t.1 t.2 s h
    have hnext : dictGet (chat_about_image σ sid t.1 (.reply t.2)).state.sessions sid
        = some { s with chat_history :=
            s.chat_history ++ [⟨"user", t.1⟩, ⟨"assistant", pyStrip t.2⟩] } := by
      rw [step]
      exact dictGet_insert_self _ _ _
    have := ih _ _ hnext
    rw [this]
    simp [turnsEntries]

/-- Claim C2: a successful chat call appends exactly the user entry then the
assistant entry to the stored history (never reordering or truncating), and
starting from a fresh session (empty history) any sequence of `N`
successful chat calls leaves a history of length exactly `2N` that strictly
alternates `user`, `assistant`, `user`, ... . -/
theorem C2_history_pairs :
    (∀ σ sid m r s, dictGet σ.sessions sid = some s →
      dictGet (chat_about_image σ sid m (.reply r)).state.sessions sid
        = some { s with chat_history :=
            s.chat_history ++ [⟨"user", m⟩, ⟨"assistant", pyStrip r⟩] }) ∧
    (∀ σ sid s ts, dictGet σ.sessions sid = some s → s.chat_history = [] →
      ∃ s', dictGet (runChats σ sid ts).sessions sid = some s' ∧
        s'.chat_history.length = 2 * ts.length ∧
        isPairs s'.chat_history = true) := by
  constructor
  · intro σ sid m r s h
    rw [chat_success_sessions σ sid m r s h]
    exact dictGet_insert_self _ _ _
  · intro σ sid s ts h hempty
    refine ⟨_, runChats_history sid ts σ s h, ?_, ?_⟩
    · simp [hempty, turnsEntries_length]
    · simp [hempty, isPairs_turnsEntries]

/-- Witness for C2: two successful chat calls on a fresh session leave a
4-entry strictly alternating history. -/
theorem C2_witness :
    (dictGet (chat_about_image sampleState "sid1" "q" (.reply "a")).state.sessions "sid1"
      = some { sampleSession with chat_history :=
          sampleSession.chat_history ++ [⟨"user", "q"⟩, ⟨"assistant", pyStrip "a"⟩] }) ∧
    (∃ s', dictGet (runChats sampleState "sid1" [("q1", "a1"), ("q2", "a2")]).sessions "sid1"
      = some s' ∧ s'.chat_history.length = 2 * 2 ∧ isPairs s'.chat_history = true) :=
  ⟨C2_history_pairs.1 sampleState "sid1" "q" "a" sampleSession (by decide),
   C2_history_pairs.2 sampleState "sid1" sampleSession [("q1", "a1"), ("q2", "a2")]
     (by decide) rfl⟩

/-! ## Claim C6 — immutable session fields -/

/-- The write-once part of a session record: everything except
`chat_history`. -/
def immutFields (s : Session) : String × String × List String × String :=
  (s.image_path, s.image_b64, s.keywords, s.description)

theorem chat_immut_frame (σ : ServerState) (sid m : String) (gw : GwReply)
    (id : String) :
    (dictGet (chat_about_image σ sid m gw).state.sessions id).map immutFields
      = (dictGet σ.sessions id).map immutFields := by
  rw [chat_about_image]
  cases hs : dictGet σ.sessions sid with
  | none => rfl
  | some s =>
    cases gw with
    | failure d => rfl
    | reply content =>
      simp only
      by_cases hid : id = sid
      · subst hid
        rw [dictGet_insert_self, hs]
        rfl
      · rw [dictGet_insert_ne _ _ hid]

theorem analyze_frame_ne (σ : ServerState) (ct fn kw b64 fid : String)
    (gp gd : GwReply) (id : String) (hid : id ≠ fid) :
    dictGet (analyze_image σ ct fn kw b64 fid gp gd).state.sessions id
      = dictGet σ.sessions id := by
  rw [analyze_image]
  by_cases hct : ct ∉ allowed_image_types
  · rw [if_pos hct]
  · rw [if_neg hct]
    simp only
    split
    · cases gd <;> simp [analyzeFinish, dictGet_insert_ne _ _ hid]
    · cases gp with
      | failure d => rfl
      | reply raw => cases gd <;> simp [analyzeFinish, dictGet_insert_ne _ _ hid]

theorem delete_frame_ne (σ : ServerState) (sid id : String) (hid : id ≠ sid) :
    dictGet (delete_session σ sid).state.sessions id = dictGet σ.sessions id := by
  rw [delete_session]
  cases hs : dictGet σ.sessions sid with
  | none => rfl
  | some s => simpa using dictGet_erase_ne σ.sessions hid

/-- Claim C6: `image_path`/`image_b64`, `keywords` and `description` are
write-once — a chat call preserves them for every session (it only extends
`chat_history`), creating another session (with a distinct fresh id) and
deleting a different session leave other records entirely untouched — and
the normalized image stored at creation is the image attached (exactly
once) in every chat payload of the session. -/
theorem C6_write_once_fields :
    (∀ σ sid m gw id,
      (dictGet (chat_about_image σ sid m gw).state.sessions id).map immutFields
        = (dictGet σ.sessions id).map immutFields) ∧
    (∀ σ ct fn kw b64 fid gp gd id, id ≠ fid →
      dictGet (analyze_image σ ct fn kw b64 fid gp gd).state.sessions id
        = dictGet σ.sessions id) ∧
    (∀ σ sid id, id ≠ sid →
      dictGet (delete_session σ sid).state.sessions id = dictGet σ.sessions id) ∧
    (∀ σ sid m gw s, dictGet σ.sessions sid = some s →
      ∀ payload ∈ (chat_about_image σ sid m gw).calls,
        imgAttachments payload = [s.image_b64]) := by
  refine ⟨chat_immut_frame, analyze_frame_ne, delete_frame_ne, ?_⟩
  intro σ sid m gw s h payload hp
  have hc : (chat_about_image σ sid m gw).calls = [chatMessages s m] := by
    cases gw <;> simp [chat_about_image, h]
  rw [hc, List.mem_singleton] at hp
  subst hp
  rw [chatMessages, imgAttachments_append, imgAttachments_append,
    imgAttachments_replay]
  rfl

/-- Witness for C6 at concrete inputs: a chat call on `sid1` keeps its
immutable fields; an analyze creating `sid9` and a delete of `sid9` leave
`sid1` untouched; the chat payload attaches exactly the stored image. -/
theorem C6_witness :
    ((dictGet (chat_about_image sampleState "sid1" "m" (.reply "r")).state.sessions "sid1").map immutFields
      = (dictGet sampleState.sessions "sid1").map immutFields) ∧
    (dictGet (analyze_image sampleState "image/png" "a.png" "" "B" "sid9"
        (.reply "k") (.reply "d")).state.sessions "sid1"
      = dictGet sampleState.sessions "sid1") ∧
    (dictGet (delete_session sampleState "sid9").state.sessions "sid1"
      = dictGet sampleState.sessions "sid1") ∧
    (∀ payload ∈ (chat_about_image sampleState "sid1" "m" (.reply "r")).calls,
      imgAttachments payload = [sampleSession.image_b64]) :=
  ⟨C6_write_once_fields.1 sampleState "sid1" "m" (.reply "r") "sid1",
   C6_write_once_fields.2.1 sampleState "image/png" "a.png" "" "B" "sid9"
     (.reply "k") (.reply "d") "sid1" (by decide),
   C6_write_once_fields.2.2.1 sampleState "sid9" "sid1" (by decide),
   C6_write_once_fields.2.2.2 sampleState "sid1" "m" (.reply "r") sampleSession
     (by decide)⟩

/-! ## Claim C7 — delete is terminal -/

/-- One incoming request, with all its oracle inputs. -/
inductive Request where
  | reqAnalyze (content_type filename keyword image_b64 fresh_id : String)
      (gp gd : GwReply)
  | reqChat (sid msg : String) (gw : GwReply)
  | reqDelete (sid : String)
deriving DecidableEq, Repr

/-- State transition of one request. -/
def stepState (σ : ServerState) : Request → ServerState
  | .reqAnalyze ct fn kw b64 fid gp gd => (analyze_image σ ct fn kw b64 fid gp gd).state
  | .reqChat sid m gw => (chat_about_image σ sid m gw).state
  | .reqDelete sid => (delete_session σ sid).state

/-- Run a sequence of requests. -/
def runRequests (σ : ServerState) : List Request → ServerState
  | [] => σ
  | r :: rs => runRequests (stepState σ r) rs

/-- The fresh session id a request allocates, if any (`str(uuid.uuid4())`
in `analyze_image`; uuid4 ids never repeat, which is the freshness
hypothesis of the terminality theorem). -/
def generatedId : Request → Option String
  | .reqAnalyze _ _ _ _ fid _ _ => some fid
  | _ => none

theorem absent_preserved_step (σ : ServerState) (sid : String) (r : Request)
    (h : dictGet σ.sessions sid = none) (hg : generatedId r ≠ some sid) :
    dictGet (stepState σ r).sessions sid = none := by
  cases r with
  | reqAnalyze ct fn kw b64 fid gp gd =>
    have hfid : sid ≠ fid := by
      intro e
      exact hg (by simp [generatedId, e])
    rw [stepState, analyze_frame_ne σ ct fn kw b64 fid gp gd sid hfid]
    exact h
  | reqChat sid' m gw =>
    rw [stepState]
    have := chat_immut_frame σ sid' m gw sid
    rw [h] at this
    simpa using this
  | reqDelete sid' =>
    rw [stepState, delete_session]
    cases hs : dictGet σ.sessions sid' with
    | none => exact h
    | some s =>
      simp only
      by_cases hid : sid = sid'
      · subst hid
        exact dictGet_erase_self _ _
      · rw [dictGet_erase_ne _ hid]
        exact h

theorem absent_preserved_run (sid : String) :
    ∀ (rs : List Request) (σ : ServerState),
      dictGet σ.sessions sid = none →
      (∀ r ∈ rs, generatedId r ≠ some sid) →
      dictGet (runRequests σ rs).sessions sid = none := by
  intro rs
  induction rs with
  | nil => intro σ h _; exact h
  | cons r rs ih =>
    intro σ h hg
    rw [runRequests]
    exact ih _ (absent_preserved_step σ sid r h (hg r (List.mem_cons_self r rs)))
      fun q hq => hg q (List.mem_cons_of_mem r hq)

/-- Claim C7: deleting an existing session removes it, and after any
further requests whose freshly generated ids differ from it (uuid4 never
repeats an id), the id is still absent, so a chat, or a second delete, on
that id fails with NotFound; deleting a nonexistent id also fails with
NotFound — the DELETED state is terminal. -/
theorem C7_delete_terminal :
    (∀ σ sid s, dictGet σ.sessions sid = some s →
      ∀ rs, (∀ r ∈ rs, generatedId r ≠ some sid) →
        dictGet (runRequests (delete_session σ sid).state rs).sessions sid = none ∧
        (∀ m gw, (chat_about_image (runRequests (delete_session σ sid).state rs) sid m gw).outcome
          = .err (.notFound "Session not found")) ∧
        (delete_session (runRequests (delete_session σ sid).state rs) sid).outcome
          = .err (.notFound "Session not found")) ∧
    (∀ σ sid, dictGet σ.sessions sid = none →
      (delete_session σ sid).outcome = .err (.notFound "Session not found")) := by
  constructor
  · intro σ sid s h rs hg
    have hdel : dictGet (delete_session σ sid).state.sessions sid = none := by
      rw [delete_session, h]
      exact dictGet_erase_self _ _
    have habs := absent_preserved_run sid rs _ hdel hg
    refine ⟨habs, ?_, ?_⟩
    · intro m gw
      rw [chat_on_absent _ _ m gw habs]
    · rw [delete_on_absent _ _ habs]
  · intro σ sid h
    rw [delete_on_absent _ _ h]

/-- Requests replayed after the delete in the C7 witness: an unrelated
upload, a chat attempt on the deleted id, and a delete attempt on it. -/
def demoRequests : List Request :=
  [.reqAnalyze "image/png" "b.png" "" "B2" "sid2" (.reply "k") (.reply "d"),
   .reqChat "sid1" "still there?" (.reply "x"),
   .reqDelete "sid1"]

/-- Witness for C7 at a concrete run. -/
theorem C7_witness :
    dictGet (runRequests (delete_session sampleState "sid1").state demoRequests).sessions "sid1" = none ∧
    (chat_about_image (runRequests (delete_session sampleState "sid1").state demoRequests)
        "sid1" "hi again" (.reply "x")).outcome = .err (.notFound "Session not found") ∧
    (delete_session (runRequests (delete_session sampleState "sid1").state demoRequests)
        "sid1").outcome = .err (.notFound "Session not found") :=
  have h := C7_delete_terminal.1 sampleState "sid1" sampleSession (by decide)
    demoRequests (by decide)
  ⟨h.1, h.2.1 "hi again" (.reply "x"), h.2.2⟩
